import Mathlib

/-!
Verification of the AUR package-build orchestrator (`src/go-builder/main.go`).

The Go program is embedded shallowly: external effects (HTTP fetch outcome,
filesystem state of the repository database archive, glob results in the
output directory, exit status of `git`/`makepkg`/`repo-add`, per-file copy
success) are passed in explicitly as environment values, and every Go
function relevant to the claims becomes a total Lean function over those
environments.  Go strings of file paths and tar header names are modelled as
`String` or `List Char`; Go's `map[string]string` is modelled as an
association list with zero-value lookup (a missing key yields `""`),
matching Go map semantics.
-/

namespace AurBuilder

/-- Prefix test on character lists (models Go `strings.HasPrefix`). -/
def isPre : List Char → List Char → Bool
  | [], _ => true
  | _ :: _, [] => false
  | a :: as, b :: bs => a = b && isPre as bs

/-- Suffix test on character lists (models Go `strings.HasSuffix`). -/
def isSuf (s l : List Char) : Bool := isPre s.reverse l.reverse

/-- Split a character list at every occurrence of `c`; models Go
`strings.Split` for a one-character separator (`strings.Split("", sep)`
is `[""]`, hence the `[[]]` base case). -/
def splitOnChar (c : Char) : List Char → List (List Char)
  | [] => [[]]
  | x :: xs =>
    let r := splitOnChar c xs
    if x = c then [] :: r
    else
      match r with
      | [] => [[x]]
      | h :: t => (x :: h) :: t

/-- Lookup in an association list with Go map semantics: a missing key
yields the zero value `""` (models `remoteVersions[pkg.Name]`). -/
def mapLookup (m : List (String × String)) (k : String) : String :=
  match m with
  | [] => ""
  | (k2, v) :: rest => if k2 = k then v else mapLookup rest k

/-- Insert with overwrite, modelling Go `versions[r.Name] = r.Version`. -/
def mapInsert (m : List (String × String)) (k v : String) :
    List (String × String) :=
  match m with
  | [] => [(k, v)]
  | (k2, v2) :: rest =>
    if k2 = k then (k, v) :: rest else (k2, v2) :: mapInsert rest k v

/-- One declared package from `config.yml` (`Config.Packages.AUR` entry:
fields `Name` and `Force`, `main.go:51-54`). -/
structure PackageSpec where
  name : String
  force : Bool

/-- The per-package build/skip decision (spec data model `BuildDecision`). -/
inductive BuildDecision where
  | Skip
  | Build
  deriving DecidableEq, Repr

/-! ## Upstream Version Resolver (`fetchAURVersions`, `main.go:121-160`) -/

/-- Outcome of the single batched HTTP request to the AUR RPC endpoint:
a transport error from `client.Get`, a response whose body fails JSON
decoding, or a response with a status code and decoded result pairs
(package name, version). -/
inductive FetchOutcome where
  | transportError
  | badBody (status : Nat)
  | response (status : Nat) (results : List (String × String))

/-- Build the `versions` map from the decoded response results
(`main.go:154-157`): later entries overwrite earlier ones. -/
def buildVersionsMap (results : List (String × String)) :
    List (String × String) :=
  results.foldl (fun m r => mapInsert m r.1 r.2) []

/-- Model of `fetchAURVersions` (`main.go:121-160`): returns `none` on a
transport error, a non-200 status, or a JSON decode failure; with no
packages it returns the empty (nil) map without issuing a request. -/
def fetchAURVersions (packages : List String) (outcome : FetchOutcome) :
    Option (List (String × String)) :=
  if packages = [] then some []
  else
    match outcome with
    | .transportError => none
    | .badBody status => if status ≠ 200 then none else none
    | .response status results =>
      if status ≠ 200 then none else some (buildVersionsMap results)

/-- Handling of the fetch result in `main` (`main.go:328-338`): on error
it logs a warning and continues with an empty map instead of aborting
the run. -/
def mainRemoteVersions (fetched : Option (List (String × String))) :
    List (String × String) :=
  match fetched with
  | none => []
  | some m => m

/-! ## Local Repository Inspector (`getRepoVersion`, `main.go:163-207`) -/

/-- State of the repository database archive file
`build/x86_64/<repo>.db.tar.gz` as seen by `getRepoVersion`:
missing (`os.Stat` reports not-exist), unopenable (`os.Open` fails),
not valid gzip (`gzip.NewReader` fails), a tar stream that yields some
header names and then a read error, or a fully valid tar stream whose
header names are `entries`. -/
inductive ArchiveState where
  | missing
  | openError
  | gzipError
  | tarError (entriesBeforeError : List (List Char))
  | valid (entries : List (List Char))

/-- The scan loop of `getRepoVersion` (`main.go:185-205`): for each tar
header name, split on `/`; if there are at least two components and the
second is `desc`, the first component is the directory name; if it has
the queried search prefix and the remainder after that prefix contains
at least one dash, return the remainder; otherwise keep scanning.
Returns `[]` (the empty string) when the entries are exhausted. -/
def descScan (pre : List Char) : List (List Char) → List Char
  | [] => []
  | name :: rest =>
    match splitOnChar '/' name with
    | dirName :: second :: _ =>
      if second = "desc".toList ∧ isPre pre dirName then
        let rem := dirName.drop pre.length
        if 1 ≤ rem.count '-' then rem else descScan pre rest
      else descScan pre rest
    | _ => descScan pre rest

/-- Model of `getRepoVersion` (`main.go:163-207`): every failure mode
(missing file, open error, gzip error, tar error before any header)
degrades to `""`; on a valid archive it runs the scan loop with the
search prefix `pkgName + "-"`.  A tar read error that occurs after some
valid headers returns `""` unless a match was already found among the
earlier headers — the same result as scanning just those headers. -/
def getRepoVersion (pkgName : String) (db : ArchiveState) : String :=
  match db with
  | .missing => ""
  | .openError => ""
  | .gzipError => ""
  | .tarError pre2 => String.mk (descScan (pkgName.toList ++ ['-']) pre2)
  | .valid entries => String.mk (descScan (pkgName.toList ++ ['-']) entries)

/-! ## Staleness Decision Engine (`main.go:354-383`) -/

/-- The `needsBuild` if-chain of `main` (`main.go:354-383`), with `""` as
the in-code sentinel for an unknown/absent version and `artifactPresent`
standing for `len(matches) > 0` of the glob
`<name>-<repoVersion>-*.pkg.tar.*` in the output directory. -/
def needsBuild (pkg : PackageSpec) (aurVersion repoVersion : String)
    (artifactPresent : Bool) : Bool :=
  if aurVersion = "" then
    if repoVersion ≠ "" then false
    else true
  else if repoVersion = "" then true
  else if repoVersion ≠ aurVersion then true
  else if pkg.force then true
  else if artifactPresent = false then true
  else false

/-- The seven-rule decision table exactly as written in spec §4.4, over
optional versions (this definition follows the SPEC's words, to be
compared with `needsBuild`, which follows the source). -/
def specTableDecision (pkg : PackageSpec)
    (upstreamVersion localVersion : Option String)
    (artifactPresent : Bool) : BuildDecision :=
  match upstreamVersion, localVersion with
  | none, some _ => .Skip
  | none, none => .Build
  | some _, none => .Build
  | some u, some l =>
    if l ≠ u then .Build
    else if pkg.force then .Build
    else if artifactPresent = false then .Build
    else .Skip

/-- Decode the Go empty-string sentinel into the spec's optional version. -/
def toOpt (s : String) : Option String := if s = "" then none else some s

/-! ## Build Executor (`buildPackage`, `main.go:546-613`) -/

/-- Outcomes of the external steps that `buildPackage` takes for one
package: whether `installPkgDeps` succeeds, whether `makepkg` exits
zero, the entries `os.ReadDir` reports in the clone directory (`none`
models a ReadDir error), and which artifact files copy successfully
into the output directory. -/
structure BuildEnv where
  depsOk : Bool
  makepkgOk : Bool
  dirEntries : Option (List String)
  copyOk : String → Bool

/-- Recognized package-archive file names (`main.go:581`): suffix
`.pkg.tar.zst` or `.pkg.tar.xz`. -/
def isPkgFileName (name : String) : Bool :=
  isSuf ".pkg.tar.zst".toList name.toList ||
    isSuf ".pkg.tar.xz".toList name.toList

/-- Model of `buildPackage` (`main.go:546-613`): fails (`none`) when
dependency installation fails, `makepkg` fails, the clone directory
cannot be read, or zero recognized artifact files are found after the
build; otherwise returns the artifact file names whose copy into the
output directory succeeded (a failed copy is logged and skipped,
`main.go:598-601`), in directory order.  The source loop works on full
paths and copies `filepath.Base`; here names stand for both. -/
def buildPackage (pkgName : String) (env : BuildEnv) :
    Option (List String) :=
  if env.depsOk = false then none
  else if env.makepkgOk = false then none
  else
    match env.dirEntries with
    | none => none
    | some entries =>
      let pkgFiles := entries.filter isPkgFileName
      if pkgFiles = [] then none
      else some (pkgFiles.filter env.copyOk)

/-! ## The main processing loop (`main.go:340-432`) -/

/-- Per-package external environment for the main loop: whether the glob
`<name>-<repoVersion>-*.pkg.tar.*` matches in the output directory
(`main.go:374-376`), whether `cloneAURPackage` succeeds
(`main.go:386`), and the build-step environment. -/
structure PkgEnv where
  artifactPresent : Bool
  cloneOk : Bool
  buildEnv : BuildEnv

/-- The loop counters and the accumulated built-file list of `main`
(`skippedCount`, `failedCount`, `builtPkgFiles`, `main.go:340-342`). -/
structure RunState where
  skipped : Nat
  failed : Nat
  builtFiles : List String

/-- The build arm of the loop body (`main.go:385-400`): a clone failure
counts the package failed and moves on; a build failure counts it
failed; a successful build appends its copied files to
`builtPkgFiles`. -/
def doBuild (e : PkgEnv) (pkg : PackageSpec) (st : RunState) : RunState :=
  if e.cloneOk = false then { st with failed := st.failed + 1 }
  else
    match buildPackage pkg.name e.buildEnv with
    | none => { st with failed := st.failed + 1 }
    | some files => { st with builtFiles := st.builtFiles ++ files }

/-- One iteration of the package loop (`main.go:344-401`), mirroring the
source's if-chain, including the placement of `skippedCount++`, which
only happens in the final artifact-present branch (`main.go:381`) and
not in the unknown-upstream keep branch (`main.go:358`). -/
def stepPackage (remote : List (String × String)) (db : ArchiveState)
    (env : String → PkgEnv) (st : RunState) (pkg : PackageSpec) :
    RunState :=
  let repoVersion := getRepoVersion pkg.name db
  let aurVersion := mapLookup remote pkg.name
  let e := env pkg.name
  if aurVersion = "" then
    if repoVersion ≠ "" then st
    else doBuild e pkg st
  else if repoVersion = "" then doBuild e pkg st
  else if repoVersion ≠ aurVersion then doBuild e pkg st
  else if pkg.force then doBuild e pkg st
  else if e.artifactPresent = false then doBuild e pkg st
  else { st with skipped := st.skipped + 1 }

/-- The whole package loop (`main.go:344-401`) from the initial zeroed
counters. -/
def runPackages (remote : List (String × String)) (db : ArchiveState)
    (env : String → PkgEnv) (pkgs : List PackageSpec) : RunState :=
  pkgs.foldl (stepPackage remote db env) ⟨0, 0, []⟩

/-- The final exit decision (`main.go:425-432`): exit 1 iff
`failedCount > 0`, otherwise fall through and exit 0. -/
def exitCode (st : RunState) : Nat := if 0 < st.failed then 1 else 0

/-- A package ends Failed in this run: it was decided Build and then its
clone failed or its build failed (`main.go:385-398`). -/
def pkgFails (remote : List (String × String)) (db : ArchiveState)
    (env : String → PkgEnv) (p : PackageSpec) : Bool :=
  needsBuild p (mapLookup remote p.name) (getRepoVersion p.name db)
      (env p.name).artifactPresent
    && (!(env p.name).cloneOk ||
        (buildPackage p.name (env p.name).buildEnv).isNone)

/-! ## Repository Database Updater (`updateRepoDatabase`, `main.go:635-679`) -/

/-- External state seen by `updateRepoDatabase`: whether a stale lock
file exists and whether `repo-add` exits zero. -/
structure DBEnv where
  lockFilePresent : Bool
  repoAddExitZero : Bool

/-- External actions `updateRepoDatabase` can take, in order: removing
the stale lock file, invoking `repo-add` with its argument list, and
sweeping `.old` backup files. -/
inductive ExtCall where
  | removeLock
  | repoAdd (args : List String)
  | removeOldFiles
  deriving DecidableEq, Repr

/-- Model of `updateRepoDatabase` (`main.go:635-679`): with an empty
package list it returns `nil` immediately (`main.go:636-639`) before
touching the lock file or invoking any tool; otherwise it removes a
stale lock if present, runs `repo-add <db> <packages...>`, and on
success sweeps `.old` files.  Result: the ordered external calls and a
success flag (`true` means the function returns `nil`). -/
def updateRepoDatabase (repoName : String) (packages : List String)
    (env : DBEnv) : List ExtCall × Bool :=
  if packages.length = 0 then ([], true)
  else
    let dbFile := repoName ++ ".db.tar.gz"
    let lockCalls : List ExtCall :=
      if env.lockFilePresent then [.removeLock] else []
    if env.repoAddExitZero then
      (lockCalls ++ [.repoAdd (dbFile :: packages), .removeOldFiles], true)
    else
      (lockCalls ++ [.repoAdd (dbFile :: packages)], false)

/-! ## Config loading trace (`loadConfig` call sites) -/

/-- Number of `loadConfig` calls made by `generateLandingPage`
(`main.go:435-536`): when the landing-page template file is missing it
returns early (`main.go:436-439`) and reads nothing; when the template
exists it calls `loadConfig(ConfigFileName)` once more (`main.go:492`)
to recover `RepoURL` and `ProjectURL` for the placeholder
substitution. -/
def landingPageConfigLoads (templateExists : Bool) : Nat :=
  if templateExists then 1 else 0

/-- Total `loadConfig` calls in one run of `main`: one at startup
(`main.go:287`) plus whatever `generateLandingPage` performs
(`main.go:422` calls it, and it may call `loadConfig` at
`main.go:492`). -/
def runConfigLoadCount (templateExists : Bool) : Nat :=
  1 + landingPageConfigLoads templateExists

/-! ## The two-package scenario of spec §8 -/

/-- Declared package `foo` of the spec §8 scenario (no force flag). -/
def fooSpec : PackageSpec := { name := "foo", force := false }

/-- Declared package `bar` of the spec §8 scenario (`force: true`). -/
def barSpec : PackageSpec := { name := "bar", force := true }

/-- Upstream answer of the scenario: foo@1.0-1, bar@2.0-1. -/
def scenarioRemote : List (String × String) :=
  [("foo", "1.0-1"), ("bar", "2.0-1")]

/-- Local repository database of the scenario: foo@1.0-1 and bar@1.0-1
are indexed. -/
def scenarioDb : ArchiveState :=
  .valid ["foo-1.0-1/desc".toList, "bar-1.0-1/desc".toList]

/-- Scenario environment in which bar's build produces exactly one
artifact file: foo's artifact file is present in the output directory,
bar's glob finds nothing for its recorded version, every clone and
build step succeeds, and every copy succeeds. -/
def scenarioEnvOne : String → PkgEnv := fun n =>
  if n = "foo" then ⟨true, true, ⟨true, true, some [], fun _ => true⟩⟩
  else
    ⟨false, true,
      ⟨true, true, some ["bar-2.0-1-x86_64.pkg.tar.zst"], fun _ => true⟩⟩

/-- The same scenario except that bar's build produces two artifact
files (a main and a debug package), both copied successfully. -/
def scenarioEnvTwo : String → PkgEnv := fun n =>
  if n = "foo" then ⟨true, true, ⟨true, true, some [], fun _ => true⟩⟩
  else
    ⟨false, true,
      ⟨true, true,
        some ["bar-2.0-1-x86_64.pkg.tar.zst",
          "bar-debug-2.0-1-x86_64.pkg.tar.zst"], fun _ => true⟩⟩

/-! ## Helper lemmas -/

/-- Splitting `d ++ "/" ++ r` on `/` when `d` is slash-free peels off
`d` as the first component. -/
theorem splitOnChar_append (d r : List Char) (hd : '/' ∉ d) :
    splitOnChar '/' (d ++ '/' :: r) = d :: splitOnChar '/' r := by
  induction d with
  | nil => simp [splitOnChar]
  | cons x xs ih =>
    have hx : ¬ x = '/' := by
      intro h
      exact hd (by simp [h])
    have hxs : '/' ∉ xs := fun h => hd (List.mem_cons_of_mem _ h)
    rw [List.cons_append]
    simp only [splitOnChar, hx, if_false, ih hxs]

/-- Splitting the slash-free word `desc` yields a single component. -/
theorem splitOnChar_desc :
    splitOnChar '/' "desc".toList = ["desc".toList] := by decide

/-- The scan loop skips a well-formed entry whose directory does not
carry the search prefix. -/
theorem descScan_skip (pre d : List Char) (rest : List (List Char))
    (hd : '/' ∉ d) (hp : isPre pre d = false) :
    descScan pre ((d ++ '/' :: "desc".toList) :: rest) =
      descScan pre rest := by
  have h1 : splitOnChar '/' (d ++ '/' :: "desc".toList) =
      [d, "desc".toList] := by
    rw [splitOnChar_append d _ hd, splitOnChar_desc]
  simp only [descScan, h1]
  simp [hp]

/-- The scan loop returns the trimmed remainder at a well-formed entry
whose directory carries the search prefix and whose remainder has at
least one dash. -/
theorem descScan_hit (pre d : List Char) (rest : List (List Char))
    (hd : '/' ∉ d) (hp : isPre pre d = true)
    (hdash : 1 ≤ (d.drop pre.length).count '-') :
    descScan pre ((d ++ '/' :: "desc".toList) :: rest) =
      d.drop pre.length := by
  have h1 : splitOnChar '/' (d ++ '/' :: "desc".toList) =
      [d, "desc".toList] := by
    rw [splitOnChar_append d _ hd, splitOnChar_desc]
  simp only [descScan, h1]
  simp only [hp, and_true, true_and]
  rw [if_pos trivial]
  exact if_pos hdash

/-- The scan loop returns the trimmed remainder of the first matching
entry when all earlier entries are well formed and unmatched. -/
theorem descScan_first_match (pre dir : List Char)
    (before after : List (List Char))
    (hwf : ∀ e ∈ before, ∃ d, e = d ++ '/' :: "desc".toList ∧ '/' ∉ d ∧
      isPre pre d = false)
    (hdir : '/' ∉ dir) (hpre : isPre pre dir = true)
    (hdash : 1 ≤ (dir.drop pre.length).count '-') :
    descScan pre (before ++ (dir ++ '/' :: "desc".toList) :: after) =
      dir.drop pre.length := by
  induction before with
  | nil =>
    rw [List.nil_append]
    exact descScan_hit pre dir after hdir hpre hdash
  | cons e es ih =>
    obtain ⟨d, he, hd, hp⟩ := hwf e (List.mem_cons_self e es)
    rw [List.cons_append, he, descScan_skip pre d _ hd hp]
    exact ih fun e2 he2 => hwf e2 (List.mem_cons_of_mem _ he2)

/-- One loop iteration adds one to `failedCount` exactly when the
package was decided Build and its clone or build failed. -/
theorem stepPackage_failed (remote : List (String × String))
    (db : ArchiveState) (env : String → PkgEnv) (st : RunState)
    (pkg : PackageSpec) :
    (stepPackage remote db env st pkg).failed =
      st.failed + (if pkgFails remote db env pkg then 1 else 0) := by
  unfold stepPackage pkgFails needsBuild doBuild
  by_cases h1 : mapLookup remote pkg.name = "" <;>
  by_cases h2 : getRepoVersion pkg.name db = "" <;>
  by_cases h3 : getRepoVersion pkg.name db = mapLookup remote pkg.name <;>
  by_cases h4 : pkg.force <;>
  by_cases h5 : (env pkg.name).artifactPresent <;>
  by_cases h6 : (env pkg.name).cloneOk <;>
  cases hb : buildPackage pkg.name (env pkg.name).buildEnv <;>
  simp_all

/-- A loop iteration whose clone succeeds and whose build reports
success with an empty file list changes neither `failedCount` nor
`builtPkgFiles`. -/
theorem stepPackage_success_empty (remote : List (String × String))
    (db : ArchiveState) (env : String → PkgEnv) (st : RunState)
    (pkg : PackageSpec) (hclone : (env pkg.name).cloneOk = true)
    (hbp : buildPackage pkg.name (env pkg.name).buildEnv = some []) :
    (stepPackage remote db env st pkg).failed = st.failed
    ∧ (stepPackage remote db env st pkg).builtFiles = st.builtFiles := by
  unfold stepPackage doBuild
  by_cases h1 : mapLookup remote pkg.name = "" <;>
  by_cases h2 : getRepoVersion pkg.name db = "" <;>
  by_cases h3 : getRepoVersion pkg.name db = mapLookup remote pkg.name <;>
  by_cases h4 : pkg.force <;>
  by_cases h5 : (env pkg.name).artifactPresent <;>
  simp_all

/-- Over the whole loop, `failedCount` counts exactly the packages whose
clone or build failed. -/
theorem foldl_failed (remote : List (String × String)) (db : ArchiveState)
    (env : String → PkgEnv) (pkgs : List PackageSpec) :
    ∀ st : RunState,
      (pkgs.foldl (stepPackage remote db env) st).failed =
        st.failed + pkgs.countP (fun p => pkgFails remote db env p) := by
  induction pkgs with
  | nil =>
    intro st
    simp
  | cons p ps ih =>
    intro st
    rw [List.foldl_cons, ih, stepPackage_failed, List.countP_cons]
    by_cases h : pkgFails remote db env p <;> simp [h] <;> omega

/-! ## Claims -/

/-- C1: the staleness decision engine evaluates exactly the seven-rule
table of spec §4.4 in the stated precedence order: for every package,
upstream version, local version and artifact-file presence, the code's
`needsBuild` chain answers Build precisely when the spec's table does.
In particular version mismatch and force are decided before the
artifact-file check, which is only reached when the versions are equal —
the table encodes that precedence, and the equivalence holds for every
input. -/
theorem staleness_table_refines_spec (pkg : PackageSpec)
    (aur repo : String) (art : Bool) :
    needsBuild pkg aur repo art = true ↔
      specTableDecision pkg (toOpt aur) (toOpt repo) art = .Build := by
  unfold needsBuild specTableDecision toOpt
  by_cases h1 : aur = "" <;> by_cases h2 : repo = "" <;>
      by_cases h3 : repo = aur <;> by_cases h4 : pkg.force <;>
      cases art <;>
    simp [h1, h2, h3, h4]

/-- C2 counterexample: a package with `force: true`, an unknown upstream
version and a present local version is decided Skip, not Build — rule 1
precedes the force rule — so the claim's quantification over all
combinations (including unknown upstream) fails, whether or not the
artifact file is present. -/
theorem force_overridden_counterexample :
    ({ name := "pkg", force := true } : PackageSpec).force = true
    ∧ needsBuild { name := "pkg", force := true } "" "1.0-1" true = false
    ∧ needsBuild { name := "pkg", force := true } "" "1.0-1" false
        = false := by
  decide

/-- C2 amended: for every package with `force == true`, the decision is
Build whenever the upstream version is known or no local version
exists, regardless of version equality and artifact-file presence; only
the unknown-upstream-with-local-version case (rule 1) overrides
force. -/
theorem force_build_amended (pkg : PackageSpec) (aur repo : String)
    (art : Bool) (hf : pkg.force = true) (h : ¬ aur = "" ∨ repo = "") :
    needsBuild pkg aur repo art = true := by
  unfold needsBuild
  rcases h with h | h
  · by_cases h2 : repo = "" <;> by_cases h3 : repo = aur <;>
      simp [h, h2, h3, hf]
  · by_cases h1 : aur = "" <;> simp [h1, h]

/-- C2 witness: a concrete force package with a known upstream version
equal to nothing local, decided Build. -/
theorem force_build_amended_witness :
    needsBuild { name := "pkg", force := true } "2.0-1" "1.0-1" true
      = true :=
  force_build_amended { name := "pkg", force := true } "2.0-1" "1.0-1"
    true rfl (Or.inl (by decide))

/-- C3: when the batched upstream lookup fails entirely (transport error
or non-success status), `main` continues with an empty version map, so
every package sees an unknown (`""`) upstream version; a package with an
existing local version and no force flag is decided Skip, and a package
with no local version is decided Build. -/
theorem upstream_failure_degrades (packages : List String)
    (hne : ¬ packages = []) (pkg : PackageSpec) (db : ArchiveState)
    (art : Bool) :
    fetchAURVersions packages FetchOutcome.transportError = none
    ∧ (∀ (status : Nat) (results : List (String × String)),
        ¬ status = 200 →
        fetchAURVersions packages (FetchOutcome.response status results)
          = none)
    ∧ mainRemoteVersions
        (fetchAURVersions packages FetchOutcome.transportError) = []
    ∧ mapLookup
        (mainRemoteVersions
          (fetchAURVersions packages FetchOutcome.transportError))
        pkg.name = ""
    ∧ (¬ getRepoVersion pkg.name db = "" → pkg.force = false →
        needsBuild pkg "" (getRepoVersion pkg.name db) art = false)
    ∧ (getRepoVersion pkg.name db = "" →
        needsBuild pkg "" (getRepoVersion pkg.name db) art = true) := by
  have hf : fetchAURVersions packages FetchOutcome.transportError
      = none := by
    simp [fetchAURVersions, hne]
  refine ⟨hf, ?_, ?_, ?_, ?_, ?_⟩
  · intro status results hs
    simp [fetchAURVersions, hne, hs]
  · rw [hf]
    rfl
  · rw [hf]
    rfl
  · intro hr hforce
    simp [needsBuild, hr]
  · intro hr
    simp [needsBuild, hr]

/-- C3 witness: one declared package, transport error, empty local
repository — the fetch degrades to `none` and the package is decided
Build. -/
theorem upstream_failure_degrades_witness :
    fetchAURVersions ["foo"] FetchOutcome.transportError = none
    ∧ needsBuild { name := "foo", force := false } "" "" false = true := by
  have h := upstream_failure_degrades ["foo"] (by decide)
    { name := "foo", force := false } ArchiveState.missing false
  exact ⟨h.1, h.2.2.2.2.2 rfl⟩

/-- C4: a build that produces zero recognized artifact files is an error
(`buildPackage` returns `none`); over the whole loop, `failedCount`
counts exactly the packages whose clone or build failed (each failure is
contained to its package, the fold continuing over the rest), and the
process exit code is 1 exactly when at least one package failed and 0
exactly when every package ended Skip or successfully Built. -/
theorem per_package_failure_containment (remote : List (String × String))
    (db : ArchiveState) (env : String → PkgEnv)
    (pkgs : List PackageSpec) (nm : String) (benv : BuildEnv)
    (entries : List String) (h1 : benv.depsOk = true)
    (h2 : benv.makepkgOk = true) (h3 : benv.dirEntries = some entries)
    (h4 : entries.filter isPkgFileName = []) :
    buildPackage nm benv = none
    ∧ (runPackages remote db env pkgs).failed =
        pkgs.countP (fun p => pkgFails remote db env p)
    ∧ (exitCode (runPackages remote db env pkgs) = 1 ↔
        0 < (runPackages remote db env pkgs).failed)
    ∧ (exitCode (runPackages remote db env pkgs) = 0 ↔
        ∀ p ∈ pkgs, pkgFails remote db env p = false) := by
  have hbp : buildPackage nm benv = none := by
    simp [buildPackage, h1, h2, h3, h4]
  have hfail : (runPackages remote db env pkgs).failed =
      pkgs.countP (fun p => pkgFails remote db env p) := by
    unfold runPackages
    rw [foldl_failed]
    simp
  refine ⟨hbp, hfail, ?_, ?_⟩
  · unfold exitCode
    by_cases h : 0 < (runPackages remote db env pkgs).failed <;> simp [h]
  · have hzero : exitCode (runPackages remote db env pkgs) = 0 ↔
        pkgs.countP (fun p => pkgFails remote db env p) = 0 := by
      unfold exitCode
      rw [hfail]
      rcases Nat.eq_zero_or_pos
          (pkgs.countP (fun p => pkgFails remote db env p)) with h | h
      · simp [h]
      · rw [if_pos h]
        have hne2 : pkgs.countP (fun p => pkgFails remote db env p)
            ≠ 0 := by omega
        simp [hne2]
    rw [hzero, List.countP_eq_zero]
    simp

/-- C4 witness: a build directory containing only `PKGBUILD` (no
recognized artifact file) makes the build step fail. -/
theorem per_package_failure_containment_witness :
    buildPackage "pkgx"
      ⟨true, true, some ["PKGBUILD"], fun _ => true⟩ = none := by
  have h := per_package_failure_containment [] ArchiveState.missing
    (fun _ => ⟨false, false, ⟨false, false, none, fun _ => false⟩⟩) []
    "pkgx" ⟨true, true, some ["PKGBUILD"], fun _ => true⟩ ["PKGBUILD"]
    rfl rfl rfl (by decide)
  exact h.1

/-- C5 counterexample: in the spec §8 two-package scenario, when bar's
build produces two artifact files, the run still decides foo→Skip
(Skipped = 1) and bar→Build (exactly one package decided Build), but
the final summary's Built figure — `len(builtPkgFiles)`
(`main.go:417`) — is 2, not 1: it counts artifact files, not
packages. -/
theorem built_count_counts_files :
    (runPackages scenarioRemote scenarioDb scenarioEnvTwo
        [fooSpec, barSpec]).skipped = 1
    ∧ (runPackages scenarioRemote scenarioDb scenarioEnvTwo
        [fooSpec, barSpec]).failed = 0
    ∧ [fooSpec, barSpec].countP (fun p =>
        needsBuild p (mapLookup scenarioRemote p.name)
          (getRepoVersion p.name scenarioDb)
          (scenarioEnvTwo p.name).artifactPresent) = 1
    ∧ (runPackages scenarioRemote scenarioDb scenarioEnvTwo
        [fooSpec, barSpec]).builtFiles.length = 2
    ∧ ¬ (runPackages scenarioRemote scenarioDb scenarioEnvTwo
        [fooSpec, barSpec]).builtFiles.length = 1 := by
  decide

/-- C5 amended: in the spec §8 scenario — foo without force, bar with
force, upstream foo@1.0-1 and bar@2.0-1, local database foo@1.0-1 with
its artifact file present and bar@1.0-1 — the run decides foo→Skip and
bar→Build, and the summary reports Skipped = 1 and Built equal to the
number of artifact files copied from bar's build, which is 1 when the
build produces exactly one artifact file (the Built figure counts
artifact files, not packages). -/
theorem two_package_scenario_amended :
    needsBuild fooSpec (mapLookup scenarioRemote "foo")
        (getRepoVersion "foo" scenarioDb) true = false
    ∧ needsBuild barSpec (mapLookup scenarioRemote "bar")
        (getRepoVersion "bar" scenarioDb) false = true
    ∧ (runPackages scenarioRemote scenarioDb scenarioEnvOne
        [fooSpec, barSpec]).skipped = 1
    ∧ (runPackages scenarioRemote scenarioDb scenarioEnvOne
        [fooSpec, barSpec]).failed = 0
    ∧ (runPackages scenarioRemote scenarioDb scenarioEnvOne
        [fooSpec, barSpec]).builtFiles
        = ["bar-2.0-1-x86_64.pkg.tar.zst"]
    ∧ (runPackages scenarioRemote scenarioDb scenarioEnvOne
        [fooSpec, barSpec]).builtFiles.length = 1 := by
  decide

/-- C6 counterexample: a corrupt tar archive (the stream errors after
one readable header) whose readable prefix contains an entry matching
the queried package does not yield the empty result — the loop returns
the matched version (`main.go:201`) before `tr.Next` ever surfaces the
error, so the claim's universal "returns the empty result for corrupt
archives" fails at this input. -/
theorem corrupt_tar_match_counterexample :
    getRepoVersion "foo"
        (ArchiveState.tarError ["foo-1.0-1/desc".toList]) = "1.0-1"
    ∧ ¬ getRepoVersion "foo"
        (ArchiveState.tarError ["foo-1.0-1/desc".toList]) = "" := by
  decide

/-- C6 amended: for every package name the inspector is a total function
(it cannot crash or raise), and it returns the empty "not found" result
when the archive file is missing, cannot be opened, or is not valid
gzip, and also when the tar stream is corrupt provided no entry
matching the package was scanned successfully before the read error; a
corrupt tar whose readable prefix does contain a matching entry returns
that entry's version instead. -/
theorem inspector_tolerates_bad_archive_amended (pkgName : String)
    (db : ArchiveState) (pre2 : List (List Char))
    (h : db = ArchiveState.missing ∨ db = ArchiveState.openError ∨
      db = ArchiveState.gzipError ∨
      (db = ArchiveState.tarError pre2 ∧
        descScan (pkgName.toList ++ ['-']) pre2 = [])) :
    getRepoVersion pkgName db = "" := by
  rcases h with h | h | h | ⟨h, hscan⟩ <;> subst h
  · rfl
  · rfl
  · rfl
  · show String.mk (descScan (pkgName.toList ++ ['-']) pre2) = ""
    rw [hscan]

/-- C6 witness: a tar stream that errors after one readable non-matching
header yields the empty result. -/
theorem inspector_tolerates_bad_archive_amended_witness :
    getRepoVersion "foo"
        (ArchiveState.tarError ["bar-1.0-1/desc".toList]) = "" :=
  inspector_tolerates_bad_archive_amended "foo"
    (ArchiveState.tarError ["bar-1.0-1/desc".toList])
    ["bar-1.0-1/desc".toList]
    (Or.inr (Or.inr (Or.inr ⟨rfl, by decide⟩)))

/-- C7: on a well-formed archive — every entry before the match is of
the form `<dir>/desc` with a slash-free directory name that does not
carry the prefix `<packageName>-` — the inspector returns the
`<version>-<release>` portion (what follows the prefix) of the first
entry whose directory name carries the prefix, provided that portion
has the `version-release` shape (at least one dash). -/
theorem inspector_returns_first_match (pkgName : String)
    (before after : List (List Char)) (dir : List Char)
    (hwf : ∀ e ∈ before, ∃ d, e = d ++ '/' :: "desc".toList ∧
      '/' ∉ d ∧ isPre (pkgName.toList ++ ['-']) d = false)
    (hdir : '/' ∉ dir)
    (hpre : isPre (pkgName.toList ++ ['-']) dir = true)
    (hdash : 1 ≤ (dir.drop (pkgName.toList ++ ['-']).length).count '-') :
    getRepoVersion pkgName
        (ArchiveState.valid
          (before ++ (dir ++ '/' :: "desc".toList) :: after)) =
      String.mk (dir.drop (pkgName.toList ++ ['-']).length) := by
  show String.mk (descScan (pkgName.toList ++ ['-'])
      (before ++ (dir ++ '/' :: "desc".toList) :: after)) = _
  rw [descScan_first_match (pkgName.toList ++ ['-']) dir before after
    hwf hdir hpre hdash]

/-- C7 witness: querying `foo` against an archive listing `aaa-1-1` and
then `foo-1.0-1` returns `1.0-1`. -/
theorem inspector_first_match_witness :
    getRepoVersion "foo"
        (ArchiveState.valid
          ["aaa-1-1/desc".toList, "foo-1.0-1/desc".toList]) = "1.0-1" := by
  have harch : (["aaa-1-1/desc".toList, "foo-1.0-1/desc".toList] :
      List (List Char)) =
      ["aaa-1-1/desc".toList] ++
        ("foo-1.0-1".toList ++ '/' :: "desc".toList) :: [] := by decide
  have h := inspector_returns_first_match "foo" ["aaa-1-1/desc".toList]
    [] "foo-1.0-1".toList
    (by
      intro e he
      rw [List.mem_singleton] at he
      subst he
      exact ⟨"aaa-1-1".toList, by decide, by decide, by decide⟩)
    (by decide) (by decide) (by decide)
  rw [harch, h]
  decide

/-- C8: with an empty set of newly built artifact files, the database
updater performs no external call at all (no lock handling, no
`repo-add`, no `.old` sweep) and reports success, for every repository
name and every external state. -/
theorem empty_update_noop (repoName : String) (env : DBEnv) :
    updateRepoDatabase repoName [] env = ([], true) := rfl

/-- C9: the claim that the configuration is loaded exactly once per run
fails on the code: in any run in which the landing-page template file
exists (the normal case), the config file is read twice — once at
startup and once more inside `generateLandingPage`
(`main.go:492`). -/
theorem config_loaded_twice :
    runConfigLoadCount true = 2 ∧ ¬ runConfigLoadCount true = 1 := by
  decide

/-- C10: when the build succeeds and produces artifact files but every
copy into the output directory fails, `buildPackage` returns success
with an empty file list, and the loop iteration for such a package
leaves `failedCount` and `builtPkgFiles` unchanged: the package is not
counted Failed, contributes zero files to the Built figure, and passes
nothing to the database updater. -/
theorem all_copies_fail_returns_success (nm : String) (benv : BuildEnv)
    (entries : List String) (h1 : benv.depsOk = true)
    (h2 : benv.makepkgOk = true) (h3 : benv.dirEntries = some entries)
    (h4 : ¬ entries.filter isPkgFileName = [])
    (h5 : ∀ f ∈ entries.filter isPkgFileName, benv.copyOk f = false) :
    buildPackage nm benv = some []
    ∧ ∀ (remote : List (String × String)) (db : ArchiveState)
        (env : String → PkgEnv) (st : RunState) (pkg : PackageSpec),
        (env pkg.name).cloneOk = true → (env pkg.name).buildEnv = benv →
        (stepPackage remote db env st pkg).failed = st.failed
        ∧ (stepPackage remote db env st pkg).builtFiles
            = st.builtFiles := by
  have hfilter : (entries.filter isPkgFileName).filter benv.copyOk
      = [] := by
    rw [List.filter_eq_nil_iff]
    intro f hf
    simp [h5 f hf]
  have hbp : ∀ n : String, buildPackage n benv = some [] := by
    intro n
    simp [buildPackage, h1, h2, h3, h4, hfilter]
  refine ⟨hbp nm, ?_⟩
  intro remote db env st pkg hclone hbe
  exact stepPackage_success_empty remote db env st pkg hclone
    (by rw [hbe]; exact hbp _)

/-- C10 witness: one produced artifact file whose copy fails — the build
step still reports success with no files. -/
theorem all_copies_fail_returns_success_witness :
    buildPackage "pkgy"
      ⟨true, true, some ["pkgy-1.0-1-x86_64.pkg.tar.zst"],
        fun _ => false⟩ = some [] := by
  have h := all_copies_fail_returns_success "pkgy"
    ⟨true, true, some ["pkgy-1.0-1-x86_64.pkg.tar.zst"], fun _ => false⟩
    ["pkgy-1.0-1-x86_64.pkg.tar.zst"] rfl rfl rfl (by decide)
    (by decide)
  exact h.1

end AurBuilder
